import Mathlib

/-!
Verification development for the plasmodesmata HTTP/2 tunnel.

Shallow embedding of the frame-level codec (src/http2/frame.rs,
src/http2/uint.rs, src/http2/error.rs), the CONNECT-tunnel byte pumps
(src/io.rs), the pool dispatch path (src/pool.rs) and the server edge's
method gate (src/server.rs).

Wire bytes are modelled as `List Nat`, each element a byte value below 256.
Machine-integer truncation is made explicit: Rust's `x as u32` and u32
wrapping arithmetic appear as `% 4294967296`, `u8` wrapping as `% 256`, and
`n & 0x7fffffff` as `% 2 ^ 31`.
-/

namespace Plasmodesmata

/-! ## Big-endian byte helpers (bytes::BigEndian read/write) -/

def readU16BE (b0 b1 : Nat) : Nat := b0 * 256 + b1

def readU24BE (b0 b1 b2 : Nat) : Nat := b0 * 65536 + b1 * 256 + b2

def readU32BE (b0 b1 b2 b3 : Nat) : Nat :=
  b0 * 16777216 + b1 * 65536 + b2 * 256 + b3

def readU64BE (b0 b1 b2 b3 b4 b5 b6 b7 : Nat) : Nat :=
  readU32BE b0 b1 b2 b3 * 4294967296 + readU32BE b4 b5 b6 b7

def u16BytesBE (n : Nat) : List Nat := [n / 256 % 256, n % 256]

def u32BytesBE (n : Nat) : List Nat :=
  [n / 16777216 % 256, n / 65536 % 256, n / 256 % 256, n % 256]

def u64BytesBE (n : Nat) : List Nat :=
  u32BytesBE (n / 4294967296) ++ u32BytesBE n

/-- Rust `as u32` / u32 wrapping arithmetic. -/
def u32wrap (n : Nat) : Nat := n % 4294967296

/-! ## src/http2/uint.rs -/

namespace U31

def min_value : Nat := 0
def initial_value : Nat := 0xffff
def max_value : Nat := 0x7fffffff

/-- `impl From<u32> for U31` (uint.rs lines 36-45): saturates above the maximum. -/
def fromU32 (src : Nat) : Nat := if src > max_value then max_value else src

end U31

namespace U24

def min_value : Nat := 0
def initial_value : Nat := 0x4000
def max_value : Nat := 0xffffff

/-- `impl From<u32> for U24` (uint.rs lines 111-120): saturates above the maximum. -/
def fromU32 (src : Nat) : Nat := if src > max_value then max_value else src

end U24

/-- `U24Codec::encode`: writes the value as a big-endian u32 and keeps bytes 1..4. -/
def u24Encode (n : Nat) : List Nat := [n / 65536 % 256, n / 256 % 256, n % 256]

/-- `U24Codec::decode`: `None` below 3 bytes, else consumes 3 bytes. -/
def u24CodecDecode (src : List Nat) : Option (Nat × List Nat) :=
  match src with
  | b0 :: b1 :: b2 :: rest => some (readU24BE b0 b1 b2, rest)
  | _ => none

/-- `U31Codec::encode`: the reserved high bit is OR'd in only when the bool is set. -/
def u31Encode (b : Bool) (n : Nat) : List Nat :=
  u32BytesBE (if b then n ||| 0x80000000 else n)

/-! ## src/http2/error.rs -/

inductive ErrorCode
  | NoError
  | ProtocolError
  | InternalError
  | FlowControlError
  | SettingsTimeout
  | StreamClosed
  | FrameSizeError
  | RefusedStream
  | Cancel
  | CompressionError
  | ConnectError
  | EnhanceYourCalm
  | InadequateSecurity
  | Http11Required
  | Unknown (code : Nat)
  deriving DecidableEq

/-- `ErrorCodeCodec::decode`'s match on the 32-bit code. -/
def ErrorCode.fromU32 (code : Nat) : ErrorCode :=
  match code with
  | 0x0 => .NoError
  | 0x1 => .ProtocolError
  | 0x2 => .InternalError
  | 0x3 => .FlowControlError
  | 0x4 => .SettingsTimeout
  | 0x5 => .StreamClosed
  | 0x6 => .FrameSizeError
  | 0x7 => .RefusedStream
  | 0x8 => .Cancel
  | 0x9 => .CompressionError
  | 0xa => .ConnectError
  | 0xb => .EnhanceYourCalm
  | 0xc => .InadequateSecurity
  | 0xd => .Http11Required
  | c => .Unknown c

/-- `ErrorCodeCodec::encode`'s match arm values. -/
def ErrorCode.toU32 : ErrorCode → Nat
  | .NoError => 0x0
  | .ProtocolError => 0x1
  | .InternalError => 0x2
  | .FlowControlError => 0x3
  | .SettingsTimeout => 0x4
  | .StreamClosed => 0x5
  | .FrameSizeError => 0x6
  | .RefusedStream => 0x7
  | .Cancel => 0x8
  | .CompressionError => 0x9
  | .ConnectError => 0xa
  | .EnhanceYourCalm => 0xb
  | .InadequateSecurity => 0xc
  | .Http11Required => 0xd
  | .Unknown c => c

def errorCodeEncode (e : ErrorCode) : List Nat := u32BytesBE e.toU32

/-! ## src/http2/frame.rs data model -/

inductive Setting
  | HeaderTableSize (value : Nat)
  | EnablePush (value : Bool)
  | MaxConcurrentStreams (value : Nat)
  | InitialWindowSize (value : Nat)
  | MaxFrameSize (value : Nat)
  | MaxHeaderListSize (value : Nat)
  | Unknown (id value : Nat)
  deriving DecidableEq

inductive Frame
  | Data (identifier : Nat) (end_stream : Bool) (pad_length : Option Nat)
      (data : List Nat)
  | Headers (identifier : Nat) (end_stream end_headers : Bool)
      (pad_length : Option Nat) (e : Option Bool) (stream_dpendency : Option Nat)
      (weight : Option Nat) (header_block_fragment : List Nat)
  | Priority (identifier : Nat) (e : Bool) (stream_dpendency : Nat) (weight : Nat)
  | RstStream (identifier : Nat) (error_code : ErrorCode)
  | Settings (ack : Bool) (settings : List Setting)
  | PushPromise (identifier : Nat) (end_headers : Bool) (pad_length : Option Nat)
      (promised_stream_id : Nat) (header_block_fragment : List Nat)
  | Ping (ack : Bool) (ping_value : Nat) -- `opaque_data` in the source; renamed for a Lean keyword clash
  | Goaway (last_stream_id : Nat) (error_code : ErrorCode)
      (additional_debug_data : List Nat)
  | WindowUpdate (identifier : Nat) (window_size_increment : Nat)
  | Continuation (identifier : Nat) (end_headers : Bool)
      (header_block_fragment : List Nat)
  | Unknown (identifier : Nat) (kind : Nat) (flags : Nat) (payload : List Nat)
  deriving DecidableEq

/-! ## src/http2/frame.rs setting codec -/

/-- `SettingCodec::decode` after the 2-byte id and 4-byte value have been read. -/
def settingDecodePair (setting_id setting_value : Nat) : Except ErrorCode Setting :=
  match setting_id with
  | 0x1 => .ok (.HeaderTableSize setting_value)
  | 0x2 => .ok (.EnablePush (setting_value != 0))
  | 0x3 => .ok (.MaxConcurrentStreams setting_value)
  | 0x4 =>
      if setting_value > U31.max_value then .error .ProtocolError
      else .ok (.InitialWindowSize (U31.fromU32 setting_value))
  | 0x5 =>
      if setting_value < U24.initial_value ∨ setting_value > U24.max_value then
        .error .ProtocolError
      else .ok (.MaxFrameSize (U24.fromU32 setting_value))
  | 0x6 => .ok (.MaxHeaderListSize setting_value)
  | id => .ok (.Unknown id setting_value)

/-- The SETTINGS decode loop: one `SettingCodec::decode` per 6-byte chunk.
The decoder only reaches it after checking the payload length is a multiple
of 6, so the catch-all arm is never hit there. -/
def decodeSettingsList : List Nat → Except ErrorCode (List Setting)
  | i0 :: i1 :: v0 :: v1 :: v2 :: v3 :: rest => do
      let s ← settingDecodePair (readU16BE i0 i1) (readU32BE v0 v1 v2 v3)
      let ss ← decodeSettingsList rest
      pure (s :: ss)
  | _ => .ok []

/-- `SettingCodec::encode`. -/
def settingEncode (item : Setting) : List Nat :=
  let p : Nat × Nat :=
    match item with
    | .HeaderTableSize value => (0x1, value)
    | .EnablePush value => (0x2, if value then 0x1 else 0x0)
    | .MaxConcurrentStreams value => (0x3, value)
    | .InitialWindowSize value => (0x4, value)
    | .MaxFrameSize value => (0x5, value)
    | .MaxHeaderListSize value => (0x6, value)
    | .Unknown id value => (id, value)
  u16BytesBE p.1 ++ u32BytesBE p.2

/-! ## src/http2/frame.rs decoder -/

/-- `eat_padding` (frame.rs lines 370-381): splits off the pad-length byte,
rejects `pad_length >= remaining`, and strips that many trailing bytes. -/
def eat_padding : List Nat → Except ErrorCode (Nat × List Nat)
  | [] => .error .FrameSizeError
  | length :: rest =>
      if rest.length ≤ length then .error .ProtocolError
      else .ok (length, rest.take (rest.length - length))

/-- The repeated `if flags & 0x8 != 0 { Some(eat_padding(..)?) } else { None }`
pattern of the DATA / HEADERS / PUSH_PROMISE arms. -/
def maybePad (flags : Nat) (payload : List Nat) :
    Except ErrorCode (Option Nat × List Nat) :=
  if flags.testBit 3 then
    match eat_padding payload with
    | .error e => .error e
    | .ok (length, rest) => .ok (some length, rest)
  else .ok (none, payload)

/-- The per-frame-type match of `FrameCodec::decode` (frame.rs lines 181-365),
after the header has been split off.  `flags & 0x1` / `0x4` / `0x8` / `0x20`
tests appear as `testBit 0/2/3/5`; the U31 mask `& 0x7fffffff` as `% 2 ^ 31`;
the E / reserved bit `tmp[0] & 0x80 != 0` as `testBit 7`. -/
def decodeBody (frame_type flags identifier payload_length : Nat)
    (payload : List Nat) : Except ErrorCode Frame :=
  match frame_type with
  | 0x0 =>
      if identifier = 0 then .error .ProtocolError
      else
        match maybePad flags payload with
        | .error e => .error e
        | .ok (pad_length, body) =>
            .ok (.Data identifier (flags.testBit 0) pad_length body)
  | 0x1 =>
      if identifier = 0 then .error .ProtocolError
      else
        match maybePad flags payload with
        | .error e => .error e
        | .ok (pad_length, body) =>
            if flags.testBit 5 then
              match body with
              | b0 :: b1 :: b2 :: b3 :: w :: frag =>
                  .ok (.Headers identifier (flags.testBit 0) (flags.testBit 2)
                        pad_length (some (b0.testBit 7))
                        (some (readU32BE b0 b1 b2 b3 % 2 ^ 31)) (some w) frag)
              | _ => .error .FrameSizeError
            else
              .ok (.Headers identifier (flags.testBit 0) (flags.testBit 2)
                    pad_length none none none body)
  | 0x2 =>
      if identifier = 0 then .error .ProtocolError
      else
        match payload with
        | [b0, b1, b2, b3, w] =>
            .ok (.Priority identifier (b0.testBit 7)
                  (readU32BE b0 b1 b2 b3 % 2 ^ 31) w)
        | _ => .error .FrameSizeError
  | 0x3 =>
      if identifier = 0 then .error .ProtocolError
      else
        match payload with
        | [c0, c1, c2, c3] =>
            .ok (.RstStream identifier (ErrorCode.fromU32 (readU32BE c0 c1 c2 c3)))
        | _ => .error .FrameSizeError
  | 0x4 =>
      if identifier ≠ 0 then .error .ProtocolError
      else if payload.length % 6 ≠ 0 then .error .FrameSizeError
      else if flags.testBit 0 ∧ payload ≠ [] then .error .FrameSizeError
      else
        match decodeSettingsList payload with
        | .error e => .error e
        | .ok settings => .ok (.Settings (flags.testBit 0) settings)
  | 0x5 =>
      if identifier = 0 then .error .ProtocolError
      else
        match maybePad flags payload with
        | .error e => .error e
        | .ok (pad_length, body) =>
            match body with
            | b0 :: b1 :: b2 :: b3 :: frag =>
                .ok (.PushPromise identifier (flags.testBit 2) pad_length
                      (readU32BE b0 b1 b2 b3 % 2 ^ 31) frag)
            | _ => .error .FrameSizeError
  | 0x6 =>
      if identifier ≠ 0 then .error .ProtocolError
      else
        match payload with
        | [b0, b1, b2, b3, b4, b5, b6, b7] =>
            .ok (.Ping (flags.testBit 0) (readU64BE b0 b1 b2 b3 b4 b5 b6 b7))
        | _ => .error .FrameSizeError
  | 0x7 =>
      if identifier ≠ 0 then .error .ProtocolError
      else
        match payload with
        | b0 :: b1 :: b2 :: b3 :: c0 :: c1 :: c2 :: c3 :: debug =>
            .ok (.Goaway (readU32BE b0 b1 b2 b3 % 2 ^ 31)
                  (ErrorCode.fromU32 (readU32BE c0 c1 c2 c3)) debug)
        | _ => .error .FrameSizeError
  | 0x8 =>
      if payload_length ≠ 4 then .error .FrameSizeError
      else
        match payload with
        | [b0, b1, b2, b3] =>
            if readU32BE b0 b1 b2 b3 % 2 ^ 31 = 0 then .error .ProtocolError
            else .ok (.WindowUpdate identifier (readU32BE b0 b1 b2 b3 % 2 ^ 31))
        | _ => .error .FrameSizeError
  | 0x9 =>
      if identifier = 0 then .error .ProtocolError
      else .ok (.Continuation identifier (flags.testBit 2) payload)
  | _ => .ok (.Unknown identifier frame_type flags payload)

/-- The tail of `FrameCodec::decode` once `self.length` holds `payload_length`:
wait for `6 + payload_length` buffered bytes, then split off type, flags,
identifier and payload.  The triple returned is (decode result, the codec's
`length` state after the call, the caller's buffer after the call).  The
source never resets `self.length` to `None`, so the state keeps the length
even after a frame is produced. -/
def decodeWith (payload_length : Nat) (src : List Nat) :
    Except ErrorCode (Option Frame) × Option Nat × List Nat :=
  if src.length < 6 + payload_length then (.ok none, some payload_length, src)
  else
    match src with
    | frame_type :: flags :: b0 :: b1 :: b2 :: b3 :: rest =>
        match decodeBody frame_type flags (readU32BE b0 b1 b2 b3 % 2 ^ 31)
            payload_length (rest.take payload_length) with
        | .error e => (.error e, some payload_length, rest.drop payload_length)
        | .ok frame =>
            (.ok (some frame), some payload_length, rest.drop payload_length)
    | _ => (.ok none, some payload_length, src)

/-- `FrameCodec::decode` (frame.rs lines 165-367).  The first component of the
state pair is the codec's `length : Option<U24>` field; the bytes consumed by
`U24Codec.decode(src)` move from the caller's buffer into that state. -/
def frameDecode (self : Option Nat) (src : List Nat) :
    Except ErrorCode (Option Frame) × Option Nat × List Nat :=
  match self with
  | some payload_length => decodeWith payload_length src
  | none =>
      match u24CodecDecode src with
      | none => (.ok none, none, src)
      | some (payload_length, rest) => decodeWith payload_length rest

/-! ## src/http2/frame.rs encoder -/

/-- `FrameCodec::encode` (frame.rs lines 387-589).  `pad_length.map(|x| x + 1)`
is u8 arithmetic, hence the `% 256`; length sums are u32 arithmetic, hence
`u32wrap`.  The two `assert!` calls (HEADERS priority tuple all-or-nothing,
SETTINGS-ACK with no settings) are modelled as `none`. -/
def frameEncode : Frame → Option (List Nat)
  | .Data identifier end_stream pad_length data =>
      let length := U24.fromU32 (u32wrap
        ((pad_length.map (fun x => (x + 1) % 256)).getD 0 + data.length))
      let flags := (if end_stream then 0x1 else 0x0) |||
        (if pad_length.isSome then 0x8 else 0x0)
      some (u24Encode length ++ [0x0, flags] ++ u31Encode false identifier ++
        (pad_length.map (fun p => [p])).getD [] ++ data ++
        List.replicate (pad_length.getD 0) 0)
  | .Headers identifier end_stream end_headers pad_length e stream_dpendency
      weight header_block_fragment =>
      if ¬(e.isSome = stream_dpendency.isSome ∧ e.isSome = weight.isSome) then
        none
      else
        let length := U24.fromU32 (u32wrap
          ((pad_length.map (fun x => (x + 1) % 256)).getD 0 +
            (if e.isSome then 4 + 1 else 0) + header_block_fragment.length))
        let flags := (if end_stream then 0x1 else 0x0) |||
          (if end_headers then 0x4 else 0x0) |||
          (if pad_length.isSome then 0x8 else 0x0) |||
          (if e.isSome then 0x20 else 0x0)
        some (u24Encode length ++ [0x1, flags] ++ u31Encode false identifier ++
          (pad_length.map (fun p => [p])).getD [] ++
          (match e, stream_dpendency, weight with
           | some eb, some dep, some w => u31Encode eb dep ++ [w]
           | _, _, _ => []) ++
          header_block_fragment ++ List.replicate (pad_length.getD 0) 0)
  | .Priority identifier e stream_dpendency weight =>
      some (u24Encode (U24.fromU32 5) ++ [0x2, 0x0] ++
        u31Encode false identifier ++ u31Encode e stream_dpendency ++ [weight])
  | .RstStream identifier error_code =>
      some (u24Encode (U24.fromU32 4) ++ [0x3, 0x0] ++
        u31Encode false identifier ++ errorCodeEncode error_code)
  | .Settings ack settings =>
      if ack ∧ settings ≠ [] then none
      else
        some (u24Encode (U24.fromU32 (u32wrap (u32wrap settings.length * 6))) ++
          [0x4, if ack then 0x1 else 0x0] ++ u31Encode false (U31.fromU32 0) ++
          (settings.map settingEncode).flatten)
  | .PushPromise identifier end_headers pad_length promised_stream_id
      header_block_fragment =>
      let length := U24.fromU32 (u32wrap
        ((pad_length.map (fun x => (x + 1) % 256)).getD 0 + 4 +
          header_block_fragment.length))
      let flags := (if end_headers then 0x4 else 0x0) |||
        (if pad_length.isSome then 0x8 else 0x0)
      some (u24Encode length ++ [0x5, flags] ++ u31Encode false identifier ++
        (pad_length.map (fun p => [p])).getD [] ++
        u31Encode false promised_stream_id ++ header_block_fragment ++
        List.replicate (pad_length.getD 0) 0)
  | .Ping ack ping_value =>
      some (u24Encode (U24.fromU32 8) ++ [0x6, if ack then 0x1 else 0x0] ++
        u31Encode false (U31.fromU32 0) ++ u64BytesBE ping_value)
  | .Goaway last_stream_id error_code additional_debug_data =>
      some (u24Encode (U24.fromU32 (u32wrap (4 + 4 + additional_debug_data.length))) ++
        [0x7, 0x0] ++ u31Encode false (U31.fromU32 0) ++
        u31Encode false last_stream_id ++ errorCodeEncode error_code ++
        additional_debug_data)
  | .WindowUpdate identifier window_size_increment =>
      some (u24Encode (U24.fromU32 4) ++ [0x8, 0x0] ++
        u31Encode false identifier ++ u31Encode false window_size_increment)
  | .Continuation identifier end_headers header_block_fragment =>
      some (u24Encode (U24.fromU32 (u32wrap header_block_fragment.length)) ++
        [0x9, if end_headers then 0x4 else 0x0] ++ u31Encode false identifier ++
        header_block_fragment)
  | .Unknown identifier kind flags payload =>
      some (u24Encode (U24.fromU32 (u32wrap payload.length)) ++
        [kind % 256, flags % 256] ++ u31Encode false identifier ++ payload)

/-! ## src/io.rs byte pumps

`copy_from_h2` and `copy_to_h2` are `#[async]` coroutines; the embedding
makes the environment explicit.  For `copy_from_h2`, `src` is the list of
DATA chunks the stream yields and `caps` the successive `Ready(n)` results
of `dst.write_buf` (the `poll!` macro retries only on `NotReady`, so each
chunk gets exactly one successful `write_buf` call, which may accept fewer
bytes than the chunk holds; the loop then moves on to the next chunk).  The
result is (the returned counter, the bytes that reached the destination).
The source contains no `release_capacity` call. -/
def copy_from_h2 : List (List Nat) → List Nat → Nat × List Nat
  | [], _caps => (0, [])
  | buf :: src, caps =>
      let n := min (caps.headD 0) buf.length
      let r := copy_from_h2 src caps.tail
      (n + r.1, buf.take n ++ r.2)

/-- `copy_to_h2` (io.rs lines 48-69).  `src` is the list of successive
`read_buf` results; the end of the list is the read that returns 0 bytes
(`buf.take()` is empty there because every earlier iteration emptied the
buffer).  An explicit empty chunk models an early zero-length read.  Result:
(the `send_data` calls as (payload, end_of_stream) pairs, the returned
counter).  The 2048-byte `reserve` bookkeeping does not affect either. -/
def copy_to_h2 : List (List Nat) → List (List Nat × Bool) × Nat
  | [] => ([([], true)], 0)
  | chunk :: src =>
      if chunk.length = 0 then ([([], true)], 0)
      else
        let r := copy_to_h2 src
        ((chunk, false) :: r.1, chunk.length + r.2)

/-! ## src/pool.rs dispatch and src/server.rs method gate -/

inductive PopOutcome
  | ok
  | panicked
  deriving DecidableEq

/-- `PoolHandle::pop` (pool.rs lines 112-127), with each connection abstracted
to the readiness its `poll_ready()` reports: pop the front connection (dial a
new one when the deque is empty, `new_client_ready` being the fresh
connection's readiness); if `poll_ready` is not ready the source executes
`unimplemented!()` — a panic — with the discard-and-retry `await!(s.pop())`
only present as a comment.  Returns the outcome and the deque afterwards. -/
def poolPop (pool : List Bool) (new_client_ready : Bool) :
    PopOutcome × List Bool :=
  match pool with
  | [] => (if new_client_ready then .ok else .panicked, [])
  | client :: rest => (if client then .ok else .panicked, rest)

inductive Method
  | CONNECT
  | GET
  | POST
  | PUT
  deriving DecidableEq

inductive ServerDispatch
  | dial_upstream
  | panicked
  deriving DecidableEq

/-- The method gate at the top of `server_handle` (server.rs lines 84-88):
a non-CONNECT method hits `unimplemented!()` — a panic — before any upstream
dial or response. -/
def server_handle (method : Method) : ServerDispatch :=
  if method = Method.CONNECT then .dial_upstream else .panicked

/-! ## Helper lemmas -/

instance {ε α : Type} [DecidableEq ε] [DecidableEq α] :
    DecidableEq (Except ε α) := fun a b =>
  match a, b with
  | .error e, .error f =>
      if h : e = f then .isTrue (h ▸ rfl)
      else .isFalse (fun hc => h (by injection hc))
  | .ok x, .ok y =>
      if h : x = y then .isTrue (h ▸ rfl)
      else .isFalse (fun hc => h (by injection hc))
  | .error _, .ok _ => .isFalse (fun hc => by injection hc)
  | .ok _, .error _ => .isFalse (fun hc => by injection hc)

@[simp] theorem u24Encode_length (n : Nat) : (u24Encode n).length = 3 := rfl

@[simp] theorem u32BytesBE_length (n : Nat) : (u32BytesBE n).length = 4 := rfl

@[simp] theorem u64BytesBE_length (n : Nat) : (u64BytesBE n).length = 8 := rfl

@[simp] theorem u31Encode_length (b : Bool) (n : Nat) :
    (u31Encode b n).length = 4 := by
  cases b <;> rfl

@[simp] theorem errorCodeEncode_length (e : ErrorCode) :
    (errorCodeEncode e).length = 4 := rfl

@[simp] theorem settingEncode_length (s : Setting) :
    (settingEncode s).length = 6 := by
  cases s <;> rfl

theorem settings_flatten_length (settings : List Setting) :
    ((settings.map settingEncode).flatten).length = 6 * settings.length := by
  induction settings with
  | nil => rfl
  | cons s rest ih => simp [ih]; ring

theorem settings_map_sum_length (settings : List Setting) :
    (List.map (List.length ∘ settingEncode) settings).sum = 6 * settings.length := by
  induction settings with
  | nil => rfl
  | cons s rest ih => simp [Function.comp, ih]; ring

/-- The `copy_to_h2` pump always issues at least one `send_data` call. -/
theorem copy_to_h2_frames_ne_nil (src : List (List Nat)) :
    (copy_to_h2 src).1 ≠ [] := by
  cases src with
  | nil => simp [copy_to_h2]
  | cons chunk rest =>
      by_cases h : chunk.length = 0 <;> simp [copy_to_h2, h]

/-- The 24-bit length field at the front of an encoded frame. -/
def headerLengthField : List Nat → Nat
  | b0 :: b1 :: b2 :: _ => readU24BE b0 b1 b2
  | _ => 0

/-- Pad-length fields small enough that the encoder's 8-bit `pad + 1`
computation does not wrap. -/
def framePadOk : Frame → Prop
  | .Data _ _ pad_length _ => pad_length.getD 0 ≤ 254
  | .Headers _ _ _ pad_length _ _ _ _ => pad_length.getD 0 ≤ 254
  | .PushPromise _ _ pad_length _ _ => pad_length.getD 0 ≤ 254
  | _ => True

@[simp] theorem headerLengthField_cons (a b c : Nat) (t : List Nat) :
    headerLengthField (a :: b :: c :: t) = readU24BE a b c := rfl

/-- An encoded frame whose in-range length value matches the byte count after
the header satisfies the header/payload length accounting. -/
theorem c3_shape_const (X : Nat) (t : List Nat) (hX : X ≤ 16777215)
    (ht : t.length = 6 + X) :
    (u24Encode (U24.fromU32 X) ++ t).length =
      9 + headerLengthField (u24Encode (U24.fromU32 X) ++ t) := by
  have hfe : U24.fromU32 X = X := by
    unfold U24.fromU32 U24.max_value
    rw [if_neg (by omega)]
  rw [hfe]
  rw [show u24Encode X ++ t = X / 65536 % 256 :: X / 256 % 256 :: X % 256 :: t
    from rfl]
  rw [headerLengthField_cons]
  simp [readU24BE, ht]
  omega

/-- Decoding a buffer holding one complete frame header and payload reduces to
the per-type body decoder, with the bytes after the payload left unconsumed. -/
theorem frameDecode_complete (len ty flags i0 i1 i2 i3 : Nat)
    (payload rest : List Nat) (hlen : len < 16777216)
    (hp : payload.length = len) :
    frameDecode none
        (u24Encode len ++ ty :: flags :: i0 :: i1 :: i2 :: i3 :: (payload ++ rest)) =
      (match decodeBody ty flags (readU32BE i0 i1 i2 i3 % 2 ^ 31) len payload with
       | .error e => (.error e, some len, rest)
       | .ok fr => (.ok (some fr), some len, rest)) := by
  show decodeWith (readU24BE (len / 65536 % 256) (len / 256 % 256) (len % 256))
      (ty :: flags :: i0 :: i1 :: i2 :: i3 :: (payload ++ rest)) = _
  have hread : readU24BE (len / 65536 % 256) (len / 256 % 256) (len % 256) = len := by
    unfold readU24BE
    omega
  rw [hread]
  unfold decodeWith
  rw [if_neg (by simp; omega)]
  show (match decodeBody ty flags (readU32BE i0 i1 i2 i3 % 2 ^ 31) len
          ((payload ++ rest).take len) with
        | .error e => (Except.error e, some len, (payload ++ rest).drop len)
        | .ok frame =>
            (Except.ok (some frame), some len, (payload ++ rest).drop len)) =
      (match decodeBody ty flags (readU32BE i0 i1 i2 i3 % 2 ^ 31) len payload with
       | .error e => (Except.error e, some len, rest)
       | .ok fr => (Except.ok (some fr), some len, rest))
  rw [List.take_left' hp, List.drop_left' hp]

/-! ## Claim theorems -/

/-- Claim C10: `U31::from(u32)` and `U24::from(u32)` clamp out-of-range inputs
to the respective maximum and return in-range inputs unchanged, never
rejecting. -/
theorem c10_saturating_from_u32 (n : Nat) (h : n < 4294967296) :
    (n ≤ 0x7fffffff → U31.fromU32 n = n) ∧
    (0x7fffffff < n → U31.fromU32 n = 0x7fffffff) ∧
    (n ≤ 0xffffff → U24.fromU32 n = n) ∧
    (0xffffff < n → U24.fromU32 n = 0xffffff) := by
  unfold U31.fromU32 U24.fromU32 U31.max_value U24.max_value
  refine ⟨fun h' => ?_, fun h' => ?_, fun h' => ?_, fun h' => ?_⟩ <;>
    split <;> omega

theorem c10_saturating_from_u32_witness :
    U31.fromU32 2147483648 = 2147483647 ∧ U24.fromU32 16777216 = 16777215 :=
  ⟨(c10_saturating_from_u32 2147483648 (by decide)).2.1 (by decide),
   (c10_saturating_from_u32 16777216 (by decide)).2.2.2 (by decide)⟩

/-- Claim C2: the stream-id scope rule on complete frames.  DATA, HEADERS,
PRIORITY, RST_STREAM, PUSH_PROMISE and CONTINUATION with a zero stream
identifier, and SETTINGS, PING and GOAWAY with a non-zero identifier, decode
to `Err(Http(ProtocolError))` whatever flags and payload carry; a
WINDOW_UPDATE frame (4-byte payload with a non-zero 31-bit increment) is
accepted with any identifier, zero or not. -/
theorem c2_stream_id_scope (len ty flags i0 i1 i2 i3 : Nat)
    (payload rest : List Nat) (hlen : len < 16777216)
    (hp : payload.length = len) :
    (ty ∈ ([0x0, 0x1, 0x2, 0x3, 0x5, 0x9] : List Nat) →
      readU32BE i0 i1 i2 i3 % 2 ^ 31 = 0 →
      (frameDecode none
        (u24Encode len ++
          ty :: flags :: i0 :: i1 :: i2 :: i3 :: (payload ++ rest))).1 =
        .error .ProtocolError) ∧
    (ty ∈ ([0x4, 0x6, 0x7] : List Nat) →
      readU32BE i0 i1 i2 i3 % 2 ^ 31 ≠ 0 →
      (frameDecode none
        (u24Encode len ++
          ty :: flags :: i0 :: i1 :: i2 :: i3 :: (payload ++ rest))).1 =
        .error .ProtocolError) ∧
    (∀ b0 b1 b2 b3, payload = [b0, b1, b2, b3] →
      readU32BE b0 b1 b2 b3 % 2 ^ 31 ≠ 0 →
      (frameDecode none
        (u24Encode len ++
          0x8 :: flags :: i0 :: i1 :: i2 :: i3 :: (payload ++ rest))).1 =
        .ok (some (.WindowUpdate (readU32BE i0 i1 i2 i3 % 2 ^ 31)
          (readU32BE b0 b1 b2 b3 % 2 ^ 31)))) := by
  refine ⟨?_, ?_, ?_⟩
  · intro hty hid
    have hid' : readU32BE i0 i1 i2 i3 % 2147483648 = 0 := hid
    rw [frameDecode_complete len ty flags i0 i1 i2 i3 payload rest hlen hp]
    fin_cases hty <;> simp [decodeBody, hid']
  · intro hty hid
    have hid' : ¬readU32BE i0 i1 i2 i3 % 2147483648 = 0 := hid
    rw [frameDecode_complete len ty flags i0 i1 i2 i3 payload rest hlen hp]
    fin_cases hty <;> simp [decodeBody, hid']
  · intro b0 b1 b2 b3 hpl hinc
    have hinc' : ¬readU32BE b0 b1 b2 b3 % 2147483648 = 0 := hinc
    rw [frameDecode_complete len 0x8 flags i0 i1 i2 i3 payload rest hlen hp]
    have hlen4 : len = 4 := by rw [hpl] at hp; simpa using hp.symm
    subst hpl hlen4
    simp [decodeBody, hinc']

theorem c2_stream_id_scope_witness :
    (frameDecode none
      (u24Encode 0 ++ 0x0 :: 0x0 :: 0 :: 0 :: 0 :: 0 :: (([] : List Nat) ++ []))).1 =
      .error .ProtocolError ∧
    (frameDecode none
      (u24Encode 4 ++ 0x8 :: 0x0 :: 0 :: 0 :: 0 :: 1 :: ([0, 0, 0, 6] ++ []))).1 =
      .ok (some (.WindowUpdate 1 6)) := by
  have h1 := (c2_stream_id_scope 0 0x0 0x0 0 0 0 0 [] [] (by decide) rfl).1
    (by decide) (by decide)
  have h2 := (c2_stream_id_scope 4 0x8 0x0 0 0 0 1 [0, 0, 0, 6] [] (by decide)
    rfl).2.2 0 0 0 6 rfl (by decide)
  exact ⟨h1, by simpa using h2⟩

/-- Claim C3 (amended): for every Frame value the encoder accepts whose
pad_length, when present, is at most 254 (the pad + 1 byte is computed in
8-bit arithmetic) and whose emitted payload fits the 24-bit length field, the
length field written in the first three output bytes equals the number of
payload bytes that follow the 9-byte frame header — pad-length byte and
trailing pad bytes included. -/
theorem c3_length_field (f : Frame) (out : List Nat)
    (henc : frameEncode f = some out) (hpad : framePadOk f)
    (hfit : out.length ≤ 9 + 16777215) :
    out.length = 9 + headerLengthField out := by
  cases f with
  | Data identifier end_stream pad_length data =>
      simp only [framePadOk] at hpad
      cases pad_length with
      | none =>
          simp only [frameEncode, Option.some.injEq] at henc
          subst henc
          simp only [Option.map_none', Option.getD_none, List.replicate_zero,
            List.append_nil, List.append_assoc] at hfit ⊢
          simp at hfit
          apply c3_shape_const <;> simp [u32wrap] <;> omega
      | some p =>
          simp only [Option.getD_some] at hpad
          simp only [frameEncode, Option.some.injEq] at henc
          subst henc
          simp only [Option.map_some', Option.getD_some, List.append_assoc]
            at hfit ⊢
          simp at hfit
          apply c3_shape_const <;> simp [u32wrap] <;> omega
  | Headers identifier end_stream end_headers pad_length e stream_dpendency
      weight header_block_fragment =>
      simp only [framePadOk] at hpad
      simp only [frameEncode] at henc
      split at henc
      · exact absurd henc (by simp)
      · rename_i hassert
        obtain ⟨h1, h2⟩ := not_not.mp hassert
        simp only [Option.some.injEq] at henc
        subst henc
        cases e <;> cases stream_dpendency <;> cases weight <;> simp at h1 h2
        · cases pad_length with
          | none =>
              simp only [Option.map_none', Option.getD_none, List.replicate_zero,
                List.append_nil, List.append_assoc, Option.isSome_none] at hfit ⊢
              simp at hfit
              apply c3_shape_const <;> simp [u32wrap] <;> omega
          | some p =>
              simp only [Option.getD_some] at hpad
              simp only [Option.map_some', Option.getD_some, List.append_assoc,
                Option.isSome_none] at hfit ⊢
              simp at hfit
              apply c3_shape_const <;> simp [u32wrap] <;> omega
        · cases pad_length with
          | none =>
              simp only [Option.map_none', Option.getD_none, List.replicate_zero,
                List.append_nil, List.append_assoc, Option.isSome_some] at hfit ⊢
              simp at hfit
              apply c3_shape_const <;> simp [u32wrap] <;> omega
          | some p =>
              simp only [Option.getD_some] at hpad
              simp only [Option.map_some', Option.getD_some, List.append_assoc,
                Option.isSome_some] at hfit ⊢
              simp at hfit
              apply c3_shape_const <;> simp [u32wrap] <;> omega
  | Priority identifier e stream_dpendency weight =>
      simp only [frameEncode, Option.some.injEq] at henc
      subst henc
      simp only [List.append_assoc] at hfit ⊢
      apply c3_shape_const
      · omega
      · simp
  | RstStream identifier error_code =>
      simp only [frameEncode, Option.some.injEq] at henc
      subst henc
      simp only [List.append_assoc] at hfit ⊢
      apply c3_shape_const
      · omega
      · simp
  | Settings ack settings =>
      simp only [frameEncode] at henc
      split at henc
      · exact absurd henc (by simp)
      · simp only [Option.some.injEq] at henc
        subst henc
        simp only [List.append_assoc] at hfit ⊢
        simp [settings_map_sum_length] at hfit
        have hw1 : u32wrap settings.length = settings.length := by
          unfold u32wrap
          omega
        have hw2 : u32wrap (settings.length * 6) = settings.length * 6 := by
          unfold u32wrap
          omega
        rw [hw1, hw2]
        apply c3_shape_const
        · omega
        · simp [settings_map_sum_length]
          omega
  | PushPromise identifier end_headers pad_length promised_stream_id
      header_block_fragment =>
      simp only [framePadOk] at hpad
      cases pad_length with
      | none =>
          simp only [frameEncode, Option.some.injEq] at henc
          subst henc
          simp only [Option.map_none', Option.getD_none, List.replicate_zero,
            List.append_nil, List.append_assoc] at hfit ⊢
          simp at hfit
          apply c3_shape_const <;> simp [u32wrap] <;> omega
      | some p =>
          simp only [Option.getD_some] at hpad
          simp only [frameEncode, Option.some.injEq] at henc
          subst henc
          simp only [Option.map_some', Option.getD_some, List.append_assoc]
            at hfit ⊢
          simp at hfit
          apply c3_shape_const <;> simp [u32wrap] <;> omega
  | Ping ack ping_value =>
      simp only [frameEncode, Option.some.injEq] at henc
      subst henc
      simp only [List.append_assoc] at hfit ⊢
      apply c3_shape_const
      · omega
      · simp
  | Goaway last_stream_id error_code additional_debug_data =>
      simp only [frameEncode, Option.some.injEq] at henc
      subst henc
      simp only [List.append_assoc] at hfit ⊢
      simp at hfit
      apply c3_shape_const <;> simp [u32wrap] <;> omega
  | WindowUpdate identifier window_size_increment =>
      simp only [frameEncode, Option.some.injEq] at henc
      subst henc
      simp only [List.append_assoc] at hfit ⊢
      apply c3_shape_const
      · omega
      · simp
  | Continuation identifier end_headers header_block_fragment =>
      simp only [frameEncode, Option.some.injEq] at henc
      subst henc
      simp only [List.append_assoc] at hfit ⊢
      simp at hfit
      apply c3_shape_const <;> simp [u32wrap] <;> omega
  | Unknown identifier kind flags payload =>
      simp only [frameEncode, Option.some.injEq] at henc
      subst henc
      simp only [List.append_assoc] at hfit ⊢
      simp at hfit
      apply c3_shape_const <;> simp [u32wrap] <;> omega

theorem c3_length_field_witness :
    ([0, 0, 8, 6, 1, 0, 0, 0, 0, 11, 11, 11, 11, 11, 11, 11, 11] : List Nat).length =
      9 + headerLengthField
        [0, 0, 8, 6, 1, 0, 0, 0, 0, 11, 11, 11, 11, 11, 11, 11, 11] :=
  c3_length_field (Frame.Ping true 795741901218843403) _ (by decide)
    trivial (by decide)

/-- Claim C3 counterexample: quantified over every Frame value, the claim
fails twice over.  An Unknown frame carrying 0x1000000 payload bytes encodes
with a length field silently saturated to 0xFFFFFF while 0x1000000 payload
bytes follow the header; a DATA frame with pad_length 255 and empty data
encodes with a length field of 0 (the 8-bit pad + 1 computation wraps) while
256 payload bytes follow. -/
theorem c3_counterexample :
    (frameEncode (Frame.Unknown 0 10 0 (List.replicate 16777216 0)) =
        some ([255, 255, 255, 10, 0, 0, 0, 0, 0] ++ List.replicate 16777216 0) ∧
      headerLengthField
        ([255, 255, 255, 10, 0, 0, 0, 0, 0] ++ List.replicate 16777216 0) =
        16777215 ∧
      (([255, 255, 255, 10, 0, 0, 0, 0, 0] ++
        List.replicate 16777216 0 : List Nat)).length - 9 = 16777216) ∧
    (frameEncode (Frame.Data 1 false (some 255) []) =
        some ([0, 0, 0, 0, 8, 0, 0, 0, 1, 255] ++ List.replicate 255 0) ∧
      headerLengthField ([0, 0, 0, 0, 8, 0, 0, 0, 1, 255] ++ List.replicate 255 0) =
        0 ∧
      (([0, 0, 0, 0, 8, 0, 0, 0, 1, 255] ++
        List.replicate 255 0 : List Nat)).length - 9 = 256) := by
  refine ⟨⟨?_, rfl, ?_⟩, ⟨?_, rfl, ?_⟩⟩
  · simp only [frameEncode, List.length_replicate, Option.some.injEq]
    norm_num [u32wrap, U24.fromU32, U24.max_value]
    rfl
  · rw [List.length_append, List.length_replicate]
    rfl
  · simp only [frameEncode, List.length_replicate, Option.some.injEq]
    norm_num [u32wrap, U24.fromU32, U24.max_value]
    rfl
  · rw [List.length_append, List.length_replicate]
    rfl

/-- Claim C4: padding removal — an empty payload fails with FrameSizeError; a
pad-length byte at least as large as the bytes remaining after it fails with
ProtocolError; otherwise exactly `pad_length` trailing bytes are stripped and
the rest becomes the body. -/
theorem c4_eat_padding (p : Nat) (rest : List Nat) :
    eat_padding [] = .error .FrameSizeError ∧
    (rest.length ≤ p → eat_padding (p :: rest) = .error .ProtocolError) ∧
    (p < rest.length → ∃ body stripped,
      eat_padding (p :: rest) = .ok (p, body) ∧
      rest = body ++ stripped ∧ stripped.length = p) := by
  refine ⟨rfl, fun h => ?_, fun h => ?_⟩
  · simp [eat_padding, h]
  · refine ⟨rest.take (rest.length - p), rest.drop (rest.length - p), ?_, ?_, ?_⟩
    · simp [eat_padding]
      omega
    · exact (List.take_append_drop _ rest).symm
    · simp
      omega

theorem c4_eat_padding_witness :
    eat_padding [5, 0] = .error .ProtocolError ∧
    ∃ body stripped, eat_padding [2, 10, 0, 0] = .ok (2, body) ∧
      [10, 0, 0] = body ++ stripped ∧ stripped.length = 2 :=
  ⟨(c4_eat_padding 5 [0]).2.1 (by decide),
   (c4_eat_padding 2 [10, 0, 0]).2.2 (by decide)⟩

set_option maxRecDepth 8000 in
/-- Claim C1 (code bug): encode-then-decode round trip.  The encoder computes
the length field via `pad_length.map(|x| x + 1)` in 8-bit arithmetic, so at
`pad_length = 255` the pad contribution wraps to 0 (in a debug build the
addition panics): the valid frame `Data{id 1, pad_length 255, data [0]}`
(pad 255 < 256 remaining payload) encodes to bytes whose length field is 1
while 257 payload bytes follow, and a fresh decode of those bytes returns
`Err(Http(ProtocolError))` instead of `Some(f)` — with 256 trailing bytes
left over rather than zero. -/
theorem c1_roundtrip_fails_at_pad255 :
    (frameEncode (Frame.Data 1 false (some 255) [0])).map
        (fun out => (frameDecode none out).1) =
      some (.error .ProtocolError) ∧
    (frameEncode (Frame.Data 1 false (some 255) [0])).map
        (fun out => (frameDecode none out).2.2.length) = some 256 := by
  decide

/-- Claim C5 (code bug): the stream→TCP pump evaluated at one DATA chunk
`[1,2,3]` whose first socket write accepts only 2 bytes.  The pump counts 2
and the destination receives `[1,2]`: the chunk is not written in a loop
until drained — the third byte is dropped — and `copy_from_h2` issues no
`release_capacity` call at all. -/
theorem c5_partial_write_drops_bytes :
    copy_from_h2 [[1, 2, 3]] [2, 10] = (2, [1, 2]) := by decide

/-- Claim C6: for every run of the TCP→stream pump, the very last `send_data`
call — and only that one — carries `end_stream = true`, its payload is empty,
and the returned counter is the total size of the earlier (data-carrying)
frames, excluding the empty terminal frame. -/
theorem c6_end_of_stream_frame (src : List (List Nat)) :
    (copy_to_h2 src).1.getLast? = some ([], true) ∧
    (∀ fr ∈ (copy_to_h2 src).1.dropLast, fr.2 = false) ∧
    (copy_to_h2 src).2 =
      ((copy_to_h2 src).1.dropLast.map (fun fr => fr.1.length)).sum := by
  induction src with
  | nil => refine ⟨rfl, by simp [copy_to_h2], rfl⟩
  | cons chunk rest ih =>
      by_cases h : chunk.length = 0
      · refine ⟨?_, ?_, ?_⟩ <;> simp [copy_to_h2, h]
      · obtain ⟨fr0, frs, hfrs⟩ :=
          List.exists_cons_of_ne_nil (copy_to_h2_frames_ne_nil rest)
        have hcr : copy_to_h2 (chunk :: rest) =
            ((chunk, false) :: fr0 :: frs, chunk.length + (copy_to_h2 rest).2) := by
          simp [copy_to_h2, h, ← hfrs]
        obtain ⟨ih1, ih2, ih3⟩ := ih
        rw [hfrs] at ih1 ih2 ih3
        refine ⟨?_, ?_, ?_⟩
        · rw [hcr, List.getLast?_cons_cons]
          exact ih1
        · intro fr hfr
          rw [hcr, List.dropLast_cons₂] at hfr
          rcases List.mem_cons.mp hfr with hfr | hfr
          · simp [hfr]
          · exact ih2 fr hfr
        · rw [hcr, List.dropLast_cons₂]
          simp only [List.map_cons, List.sum_cons]
          omega

/-- Claim C7 counterexample: the buffer `[0,0,5,0]` holds an incomplete frame
(the length field announces 5 payload bytes).  Decode does return `Ok(None)`,
but the caller's buffer is left as `[0]`, not unchanged: `U24Codec.decode`
consumed the 3-byte length prefix into the codec state. -/
theorem c7_buffer_consumed_on_incomplete :
    (frameDecode none [0, 0, 5, 0]).1 = .ok none ∧
    (frameDecode none [0, 0, 5, 0]).2.2 = [0] ∧
    [0] ≠ [0, 0, 5, 0] := by decide

/-- Claim C7 (amended): on input without a complete frame, decode returns
`Ok(None)`.  With fewer than 3 buffered bytes the buffer is untouched and the
state stays `NeedLength`; otherwise exactly the 3-byte length prefix moves
into the codec's `length` state — no data is lost, since that prefix is the
encoding of the recorded state — and decoding resumes after more bytes are
appended exactly as a fresh decode of the full sequence would. -/
theorem c7_incomplete_input (src : List Nat) :
    (src.length < 3 → frameDecode none src = (.ok none, none, src)) ∧
    (∀ b0 b1 b2 rest, b0 < 256 → b1 < 256 → b2 < 256 →
      src = b0 :: b1 :: b2 :: rest →
      rest.length < 6 + readU24BE b0 b1 b2 →
      frameDecode none src = (.ok none, some (readU24BE b0 b1 b2), rest) ∧
      u24Encode (readU24BE b0 b1 b2) = [b0, b1, b2] ∧
      ∀ more, frameDecode (some (readU24BE b0 b1 b2)) (rest ++ more) =
        frameDecode none (src ++ more)) := by
  constructor
  · intro hlen
    match src, hlen with
    | [], _ => rfl
    | [_], _ => rfl
    | [_, _], _ => rfl
  · intro b0 b1 b2 rest h0 h1 h2 hsrc hshort
    subst hsrc
    refine ⟨?_, ?_, fun more => rfl⟩
    · simp [frameDecode, u24CodecDecode, decodeWith, hshort]
    · simp [u24Encode, readU24BE]
      refine ⟨?_, ?_, ?_⟩ <;> omega

theorem c7_incomplete_input_witness :
    frameDecode none [0, 0, 5, 0] = (.ok none, some 5, [0]) ∧
    frameDecode (some 5) ([0] ++ [0, 0, 0, 0, 1, 9, 9, 9, 9, 9]) =
      frameDecode none ([0, 0, 5, 0] ++ [0, 0, 0, 0, 1, 9, 9, 9, 9, 9]) := by
  have h := (c7_incomplete_input [0, 0, 5, 0]).2 0 0 5 [0]
    (by decide) (by decide) (by decide) rfl (by decide)
  exact ⟨h.1, h.2.2 [0, 0, 0, 0, 1, 9, 9, 9, 9, 9]⟩

theorem c6_end_of_stream_frame_witness :
    (copy_to_h2 [[1, 2], [3]]).1.getLast? = some ([], true) ∧
    (copy_to_h2 [[1, 2], [3]]).2 =
      ((copy_to_h2 [[1, 2], [3]]).1.dropLast.map (fun fr => fr.1.length)).sum :=
  ⟨(c6_end_of_stream_frame [[1, 2], [3]]).1,
   (c6_end_of_stream_frame [[1, 2], [3]]).2.2⟩

/-- Claim C8 (code bug): pool dispatch evaluated at a pool whose front
connection reports it is not ready for a new stream.  `PoolHandle::pop`
reaches `unimplemented!()` and panics instead of discarding the connection
and repeating (the retry `await!(s.pop())` exists only as a comment). -/
theorem c8_pop_panics_on_unready_connection :
    poolPop [false] true = (.panicked, []) := by decide

/-- Claim C9 (code bug): the server edge evaluated at an incoming stream whose
method is GET.  `server_handle` hits `unimplemented!()` — a panic — before any
upstream dial, instead of closing the stream with `RefusedStream`. -/
theorem c9_non_connect_method_panics :
    server_handle .GET = .panicked := by decide

end Plasmodesmata
